import Mathlib

/-!
Verification of the web text agent (`crates/eframe/src/web/text_agent.rs`):
a hidden `<input>` element that traps IME / mobile-keyboard events and
translates them into semantic input events, together with its positioning,
focus, and attachment logic.

The Rust source is shallowly embedded: each DOM event handler becomes a pure
function from the proxy control's state to a new state plus the list of
semantic events it pushes; fallible DOM calls are driven by explicit
success oracles; `f32` coordinates are modelled by `ℚ`.
-/

namespace TextAgent

/-- Semantic events pushed onto `runner.input.raw.events`
(`egui::Event::Text` and `egui::Event::Ime(..)`). -/
inductive Event where
  | text (s : String)
  | imeEnabled
  | imePreedit (s : String)
  | imeCommit (s : String)
deriving DecidableEq, Repr

/-- Observable state of the proxy `<input>` control that the handlers touch:
its buffered value (`input.value()` / `input.set_value`). -/
structure InputState where
  value : String
deriving DecidableEq, Repr

/-- Everything one handler invocation does: the control state it leaves
behind, the semantic events it pushes (in order), how many
`repaint_asap` requests it makes, and how many blur-then-refocus
workaround cycles it performs on the control. -/
structure InputEffects where
  state : InputState
  events : List Event
  repaints : Nat
  focusCycles : Nat
deriving DecidableEq, Repr

/-- The `"input"` event handler (`on_input` in the source).
`composing` is `event.is_composing()`. It reads `text = input.value()`,
blurs-then-refocuses when not composing (Gboard workaround), and when the
text is non-empty and not composing it clears the buffer and pushes
`Text(text)` with a repaint request. -/
def on_input (composing : Bool) (s : InputState) : InputEffects :=
  let text := s.value
  let cycles := if !composing then 1 else 0
  if !text.isEmpty && !composing then
    { state := ⟨""⟩, events := [.text text], repaints := 1, focusCycles := cycles }
  else
    { state := s, events := [], repaints := 0, focusCycles := cycles }

/-- The `"compositionstart"` handler: clears the buffer and pushes
`Ime(Enabled)` with a repaint request. -/
def on_composition_start (_s : InputState) : InputEffects :=
  { state := ⟨""⟩, events := [.imeEnabled], repaints := 1, focusCycles := 0 }

/-- The `"compositionupdate"` handler. `payload` is `event.data()`:
absent data means no event at all; present data is pushed as
`Ime(Preedit(text))` with a repaint request. -/
def on_composition_update (payload : Option String) (s : InputState) : InputEffects :=
  match payload with
  | none => { state := s, events := [], repaints := 0, focusCycles := 0 }
  | some text =>
      { state := s, events := [.imePreedit text], repaints := 1, focusCycles := 0 }

/-- The `"compositionend"` handler. Absent data means no event; present
data clears the buffer and is pushed as `Ime(Commit(text))` with a repaint
request. -/
def on_composition_end (payload : Option String) (s : InputState) : InputEffects :=
  match payload with
  | none => { state := s, events := [], repaints := 0, focusCycles := 0 }
  | some text =>
      { state := ⟨""⟩, events := [.imeCommit text], repaints := 1, focusCycles := 0 }

/-- A raw platform notification delivered to the text agent's listeners. -/
inductive Notification where
  | input (composing : Bool)
  | compositionStart
  | compositionUpdate (payload : Option String)
  | compositionEnd (payload : Option String)
deriving DecidableEq, Repr

/-- Dispatch one notification to its handler. -/
def handle : Notification → InputState → InputEffects
  | .input composing, s => on_input composing s
  | .compositionStart, s => on_composition_start s
  | .compositionUpdate payload, s => on_composition_update payload s
  | .compositionEnd payload, s => on_composition_end payload s

/-- Run a sequence of notifications, collecting all pushed events in order. -/
def run (s : InputState) : List Notification → InputState × List Event
  | [] => (s, [])
  | n :: rest =>
      let e := handle n s
      let r := run e.state rest
      (r.1, e.events ++ r.2)

/-- Boolean test that `p` is an initial segment of `l` (character lists). -/
def hasPrefixChars : List Char → List Char → Bool
  | [], _ => true
  | _ :: _, [] => false
  | p :: ps, c :: cs => p == c && hasPrefixChars ps cs

/-- Boolean test that `pat` occurs contiguously inside the second list. -/
def containsChars (pat : List Char) : List Char → Bool
  | [] => hasPrefixChars pat []
  | c :: cs => hasPrefixChars pat (c :: cs) || containsChars pat cs

/-- Model of Rust's `str::contains` with a string pattern: substring test. -/
def containsStr (s pat : String) : Bool :=
  containsChars pat.toList s.toList

/-- Model of `is_mobile_safari` from the source. The environment is abstracted to the
user-agent string the browser reports: `none` models any failure in
`window()? / navigator().user_agent().ok()?`, which `unwrap_or(false)`
turns into `false`. -/
def is_mobile_safari (user_agent : Option String) : Bool :=
  (user_agent.bind fun ua =>
    let is_ios := containsStr ua "iPhone" || containsStr ua "iPad" ||
      containsStr ua "iPod"
    let is_sa := containsStr ua "Safari"
    some (is_ios && is_sa)).getD false

/-- Spec-side characterization of the mobile-browser detection, written from
the spec's words: true for exactly those identification strings that
contain a mobile-device token (one of "iPhone", "iPad", "iPod") and the
browser-name token "Safari"; a failed read is never a match. -/
def mobile_safari_spec (user_agent : Option String) : Prop :=
  ∃ s, user_agent = some s ∧
    (List.IsInfix "iPhone".toList s.toList ∨ List.IsInfix "iPad".toList s.toList ∨
      List.IsInfix "iPod".toList s.toList) ∧
    List.IsInfix "Safari".toList s.toList

/-- A 2D point / vector, with `f32` coordinates modelled by `ℚ`. -/
structure Pos where
  x : ℚ
  y : ℚ
deriving DecidableEq, Repr

/-- An axis-aligned rectangle (`egui::Rect`): `min` and `max` corners. -/
structure Rect where
  min : Pos
  max : Pos
deriving DecidableEq, Repr

/-- Model of `Rect::center`. -/
def Rect.center (r : Rect) : Pos :=
  ⟨(r.min.x + r.max.x) / 2, (r.min.y + r.max.y) / 2⟩

/-- Model of `Rect::translate`. -/
def Rect.translate (r : Rect) (v : Pos) : Rect :=
  ⟨⟨r.min.x + v.x, r.min.y + v.y⟩, ⟨r.max.x + v.x, r.max.y + v.y⟩⟩

/-- Model of `egui::output::IMEOutput`: the comparable geometry snapshot supplied
each frame (`rect` plus the text-cursor rectangle used for positioning). -/
structure IMEOutput where
  rect : Rect
  cursor_rect : Rect
deriving DecidableEq, Repr

/-- What `move_to` reads from the canvas element: its content rectangle
(`canvas_content_rect`) and its `offset_top`. -/
structure CanvasInfo where
  content_rect : Rect
  offset_top : ℚ
deriving DecidableEq, Repr

/-- The agent's own mutable state: the `prev_ime_output` cache cell. -/
structure TextAgentState where
  prev_ime_output : Option IMEOutput
deriving DecidableEq, Repr

/-- Result of one `move_to` call: the returned `Result`, the cache cell it
leaves behind, and the style writes it attempted, in order, as
(property, pixel value) pairs. -/
structure MoveOutcome where
  result : Except Unit Unit
  state : TextAgentState
  writes : List (String × ℚ)
deriving Repr

/-- Model of `move_to` from the source. `dom i` tells whether the `i`-th style write
of this call (0 = "left", 1 = "top") is accepted by the host; a rejected
write is still recorded as attempted, and aborts with `Err` as the `?`
operator does. The cache is compared first (equal snapshot: no write, no
cache store), then stored, then `None` returns before any write. -/
def move_to (s : TextAgentState) (ime : Option IMEOutput) (canvas : CanvasInfo)
    (zoom_factor : ℚ) (user_agent : Option String) (dom : Nat → Bool) :
    MoveOutcome :=
  if s.prev_ime_output = ime then
    { result := .ok (), state := s, writes := [] }
  else
    let s' : TextAgentState := ⟨ime⟩
    match ime with
    | none => { result := .ok (), state := s', writes := [] }
    | some i =>
        let canvas_rect := canvas.content_rect
        let canvas_rect :=
          if is_mobile_safari user_agent then
            { canvas_rect with min := ⟨canvas_rect.min.x, canvas.offset_top⟩ }
          else canvas_rect
        let cursor_rect := i.cursor_rect.translate canvas_rect.min
        let leftVal := cursor_rect.center.x * zoom_factor
        if dom 0 then
          let topVal := cursor_rect.center.y * zoom_factor
          if dom 1 then
            { result := .ok (), state := s', writes := [("left", leftVal), ("top", topVal)] }
          else
            { result := .error (), state := s', writes := [("left", leftVal), ("top", topVal)] }
        else
          { result := .error (), state := s', writes := [("left", leftVal)] }

/-- A concrete geometry snapshot used to instantiate theorems. -/
def imeSample : IMEOutput :=
  ⟨⟨⟨0, 0⟩, ⟨0, 0⟩⟩, ⟨⟨10, 20⟩, ⟨30, 40⟩⟩⟩

/-- A concrete canvas description used to instantiate theorems. -/
def canvasSample : CanvasInfo :=
  ⟨⟨⟨0, 0⟩, ⟨800, 600⟩⟩, 0⟩

/-- The fallible steps of `attach`, in source order, numbered:
0 `create_element`, 1 `dyn_into::<HtmlElement>`, 2 `set_autofocus`,
3 `dyn_into::<HtmlInputElement>`, 4 `set_attribute("autocapitalize")`,
5–13 the nine style `set_property` calls, 14 `dyn_into::<Document>` (only
when the root is the whole document), 15 `append_child` (the insertion),
16–21 the six `add_event_listener` subscriptions. Steps before the
insertion, document-cast included when applicable: -/
def preInsertSteps (isDoc : Bool) : List Nat :=
  [0, 1, 2, 3, 4, 5, 6, 7, 8, 9, 10, 11, 12, 13] ++ if isDoc then [14] else []

/-- The listener-subscription steps of `attach`, which run after the
control has been inserted into the document. -/
def listenerSteps : List Nat :=
  [16, 17, 18, 19, 20, 21]

/-- All the listed steps succeed under the oracle `ok`. -/
def runSteps (ok : Nat → Bool) : List Nat → Bool
  | [] => true
  | i :: rest => ok i && runSteps ok rest

/-- Model of `attach` from the source, with every fallible host call driven by the
success oracle `ok` (step numbering as in `preInsertSteps`). Each `?` in
the source is an early `Err` return here. The second component records
whether the control was inserted into the document tree (i.e. whether the
`append_child` at step 15 ran and succeeded). On full success the agent is
returned with a default (`none`) `prev_ime_output` cache. -/
def attach (isDoc : Bool) (ok : Nat → Bool) : Except Unit TextAgentState × Bool :=
  if !ok 0 then (.error (), false) else
  if !ok 1 then (.error (), false) else
  if !ok 2 then (.error (), false) else
  if !ok 3 then (.error (), false) else
  if !ok 4 then (.error (), false) else
  if !ok 5 then (.error (), false) else
  if !ok 6 then (.error (), false) else
  if !ok 7 then (.error (), false) else
  if !ok 8 then (.error (), false) else
  if !ok 9 then (.error (), false) else
  if !ok 10 then (.error (), false) else
  if !ok 11 then (.error (), false) else
  if !ok 12 then (.error (), false) else
  if !ok 13 then (.error (), false) else
  if isDoc && !ok 14 then (.error (), false) else
  if !ok 15 then (.error (), false) else
  if !ok 16 then (.error (), true) else
  if !ok 17 then (.error (), true) else
  if !ok 18 then (.error (), true) else
  if !ok 19 then (.error (), true) else
  if !ok 20 then (.error (), true) else
  if !ok 21 then (.error (), true) else
  (.ok ⟨none⟩, true)

/-- Platform-call trace of one focus-coordinator invocation: how many
platform `focus()` calls, platform `blur()` calls, and logged (swallowed)
errors it performed. The operations return this trace and nothing else:
there is no error component to propagate. -/
structure FocusTrace where
  focus_calls : Nat
  blur_calls : Nat
  logged_errors : Nat
deriving DecidableEq, Repr

/-- Model of `focus` from the source: early return when the control already has
focus (`has_focus`); otherwise one platform focus call, whose rejection
(`platform_ok = false`) is logged, never returned. -/
def focus (has_focus platform_ok : Bool) : FocusTrace :=
  if has_focus then ⟨0, 0, 0⟩
  else ⟨1, 0, if platform_ok then 0 else 1⟩

/-- Model of `blur` from the source: early return when the control does not have
focus; otherwise one platform blur call, whose rejection is logged,
never returned. -/
def blur (has_focus platform_ok : Bool) : FocusTrace :=
  if !has_focus then ⟨0, 0, 0⟩
  else ⟨0, 1, if platform_ok then 0 else 1⟩

/-- Model of `set_focus` from the source: dispatch to `focus` or `blur`. -/
def set_focus (enable has_focus platform_ok : Bool) : FocusTrace :=
  if enable then focus has_focus platform_ok else blur has_focus platform_ok

end TextAgent

namespace TextAgent

/-- C1: a non-composing input notification with non-empty buffered value `V`
emits exactly the one event `Text(V)` and clears the buffered value. -/
theorem c1_plain_input_commits (s : InputState) (h : s.value ≠ "") :
    (on_input false s).events = [Event.text s.value] ∧
      (on_input false s).state.value = "" := by
  have hne : s.value.isEmpty = false := by
    cases he : s.value.isEmpty
    · rfl
    · exact absurd ((String.isEmpty_iff s.value).mp he) h
  simp [on_input, hne]

/-- Witness for C1 at the concrete buffered value `"a"`. -/
theorem c1_plain_input_commits_witness :
    (InputState.mk "a").value ≠ "" ∧
      ((on_input false ⟨"a"⟩).events = [Event.text (InputState.mk "a").value] ∧
        (on_input false ⟨"a"⟩).state.value = "") :=
  ⟨by decide, c1_plain_input_commits ⟨"a"⟩ (by decide)⟩

/-- C2: an input notification with the composing flag set emits no events
and leaves the buffered value (indeed the whole control state) untouched,
whatever the buffered value is; the blur/refocus workaround is skipped too. -/
theorem c2_composing_input_suppressed (s : InputState) :
    (on_input true s).events = [] ∧ (on_input true s).state = s ∧
      (on_input true s).focusCycles = 0 := by
  simp [on_input]

/-- C3 counterexample: a composition-update notification whose payload is
present but equal to the empty string does emit a semantic event
(`ImePreedit ""`), refuting the claim that it emits none. -/
theorem c3_empty_payload_counterexample :
    (on_composition_update (some "") ⟨""⟩).events = [Event.imePreedit ""] ∧
      (on_composition_end (some "") ⟨""⟩).events = [Event.imeCommit ""] := by
  decide

/-- C3 amended: the composition-update and composition-end handlers emit no
event exactly when the payload is absent; a present payload — the empty
string included — is always forwarded, as `ImePreedit` resp. `ImeCommit`
of the payload. -/
theorem c3_amended_payload_forwarding (s : InputState) (t : String) :
    (on_composition_update none s).events = [] ∧
      (on_composition_end none s).events = [] ∧
      (on_composition_update (some t) s).events = [Event.imePreedit t] ∧
      (on_composition_end (some t) s).events = [Event.imeCommit t] := by
  refine ⟨rfl, rfl, rfl, rfl⟩

/-- C4: the composition sequence start, update "麻", update "麻婆",
end "麻婆豆腐" produces exactly `ImeEnabled, ImePreedit "麻",
ImePreedit "麻婆", ImeCommit "麻婆豆腐"`, and the buffered value is empty
right after the start notification and after the whole sequence. -/
theorem c4_composition_sequence (s : InputState) :
    (run s [.compositionStart, .compositionUpdate (some "麻"),
        .compositionUpdate (some "麻婆"), .compositionEnd (some "麻婆豆腐")]).2 =
      [Event.imeEnabled, Event.imePreedit "麻", Event.imePreedit "麻婆",
        Event.imeCommit "麻婆豆腐"] ∧
    (handle .compositionStart s).state.value = "" ∧
    (run s [.compositionStart, .compositionUpdate (some "麻"),
        .compositionUpdate (some "麻婆"), .compositionEnd (some "麻婆豆腐")]).1.value
      = "" := by
  refine ⟨rfl, rfl, rfl⟩

/-- When the supplied snapshot equals the cached one, `move_to` returns
success at once: no cache store, no write. -/
theorem move_to_eq_of_same (s : TextAgentState) (ime : Option IMEOutput)
    (c : CanvasInfo) (z : ℚ) (ua : Option String) (dom : Nat → Bool)
    (h : s.prev_ime_output = ime) :
    move_to s ime c z ua dom = ⟨.ok (), s, []⟩ := by
  simp [move_to, h]

/-- After any `move_to` call the cache holds the supplied snapshot,
whatever the write outcomes were. -/
theorem move_to_cache (s : TextAgentState) (ime : Option IMEOutput)
    (c : CanvasInfo) (z : ℚ) (ua : Option String) (dom : Nat → Bool) :
    (move_to s ime c z ua dom).state.prev_ime_output = ime := by
  by_cases h : s.prev_ime_output = ime
  · simp [move_to, h]
  · cases ime with
    | none => simp [move_to, h]
    | some i =>
        by_cases d0 : dom 0
        · by_cases d1 : dom 1 <;> simp [move_to, h, d0, d1]
        · simp [move_to, h, d0]

/-- A `move_to` call attempts a style write exactly when the snapshot differs from
the cached one and is present. -/
theorem move_to_writes_ne_iff (s : TextAgentState) (ime : Option IMEOutput)
    (c : CanvasInfo) (z : ℚ) (ua : Option String) (dom : Nat → Bool) :
    (move_to s ime c z ua dom).writes ≠ [] ↔
      s.prev_ime_output ≠ ime ∧ ime ≠ none := by
  by_cases h : s.prev_ime_output = ime
  · simp [move_to, h]
  · cases ime with
    | none => simp [move_to, h]
    | some i =>
        by_cases d0 : dom 0
        · by_cases d1 : dom 1 <;> simp [move_to, h, d0, d1]
        · simp [move_to, h, d0]

/-- C5: a `move_to` call performs a DOM style write iff the supplied
snapshot differs from the cached one and is present; an immediately
repeated call with the same snapshot (any canvas/zoom/oracle) performs
zero writes and succeeds; and a call with `none` records `none` in the
cache but performs no position write. -/
theorem c5_move_to_change_detection (s : TextAgentState) (ime : Option IMEOutput)
    (c c2 : CanvasInfo) (z z2 : ℚ) (ua ua2 : Option String) (dom dom2 : Nat → Bool) :
    ((move_to s ime c z ua dom).writes ≠ [] ↔
        s.prev_ime_output ≠ ime ∧ ime ≠ none) ∧
      (move_to (move_to s ime c z ua dom).state ime c2 z2 ua2 dom2).writes = [] ∧
      (move_to (move_to s ime c z ua dom).state ime c2 z2 ua2 dom2).result
        = Except.ok () ∧
      (move_to s none c z ua dom).state.prev_ime_output = none ∧
      (move_to s none c z ua dom).writes = [] := by
  have hsecond := move_to_eq_of_same (move_to s ime c z ua dom).state ime c2 z2 ua2
    dom2 (move_to_cache s ime c z ua dom)
  refine ⟨move_to_writes_ne_iff s ime c z ua dom, ?_, ?_,
    move_to_cache s none c z ua dom, ?_⟩
  · rw [hsecond]
  · rw [hsecond]
  · by_cases h : s.prev_ime_output = none <;> simp [move_to, h]

/-- C10: `move_to` stores the new snapshot in the cache before attempting
any style write, so even when a write is rejected (the oracle `dom` is
arbitrary, rejecting ones included) the cache holds the new snapshot, and
an immediately repeated call with the same snapshot performs no DOM write
and returns success — the failed positioning is not re-attempted. -/
theorem c10_move_to_no_retry (s : TextAgentState) (ime : Option IMEOutput)
    (c c2 : CanvasInfo) (z z2 : ℚ) (ua ua2 : Option String) (dom dom2 : Nat → Bool)
    (h : s.prev_ime_output ≠ ime) :
    (move_to s ime c z ua dom).state.prev_ime_output = ime ∧
      (move_to (move_to s ime c z ua dom).state ime c2 z2 ua2 dom2).writes = [] ∧
      (move_to (move_to s ime c z ua dom).state ime c2 z2 ua2 dom2).result
        = Except.ok () := by
  have hsecond := move_to_eq_of_same (move_to s ime c z ua dom).state ime c2 z2 ua2
    dom2 (move_to_cache s ime c z ua dom)
  exact ⟨move_to_cache s ime c z ua dom, by rw [hsecond], by rw [hsecond]⟩

/-- Witness for C10: empty cache, a concrete snapshot, and a host that
rejects every style write. -/
theorem c10_move_to_no_retry_witness :
    (TextAgentState.mk none).prev_ime_output ≠ some imeSample ∧
      ((move_to ⟨none⟩ (some imeSample) canvasSample 1 none fun _ => false).state.prev_ime_output
          = some imeSample ∧
        (move_to (move_to ⟨none⟩ (some imeSample) canvasSample 1 none
              fun _ => false).state (some imeSample) canvasSample 1 none
            fun _ => false).writes = [] ∧
        (move_to (move_to ⟨none⟩ (some imeSample) canvasSample 1 none
              fun _ => false).state (some imeSample) canvasSample 1 none
            fun _ => false).result = Except.ok ()) :=
  ⟨by simp, c10_move_to_no_retry ⟨none⟩ (some imeSample) canvasSample canvasSample
    1 1 none none (fun _ => false) (fun _ => false) (by simp)⟩

/-- C6 counterexample: with every host call accepted except the first
listener subscription (step 16), `attach` returns a failure, yet the
control has been inserted into the document tree and is left attached —
subscriptions run after insertion, refuting "never inserted on failure". -/
theorem c6_attach_counterexample :
    (attach false fun i => i != 16).1 = Except.error () ∧
      (attach false fun i => i != 16).2 = true :=
  ⟨rfl, rfl⟩

/-- C6 amended: if any construction, configuration, styling, or insertion
step fails, `attach` fails and the control is not inserted; if those all
succeed but a listener-subscription step fails, `attach` still fails (no
agent is returned) but the already-inserted control remains in the
document. Precisely: the control ends up inserted iff every pre-insertion
step and the insertion succeed, and `attach` succeeds (returning the agent
with an empty cache) iff every step succeeds. -/
theorem c6_amended_attach_failure (isDoc : Bool) (ok : Nat → Bool) :
    ((attach isDoc ok).2 = true ↔
        (runSteps ok (preInsertSteps isDoc) && ok 15) = true) ∧
      ((attach isDoc ok).1 = Except.ok ⟨none⟩ ↔
        (runSteps ok (preInsertSteps isDoc) && ok 15 && runSteps ok listenerSteps)
          = true) ∧
      ((attach isDoc ok).1 = Except.error () ↔
        (runSteps ok (preInsertSteps isDoc) && ok 15 && runSteps ok listenerSteps)
          = false) := by
  cases isDoc
  · simp only [attach, preInsertSteps, listenerSteps, runSteps]
    cases h0 : ok 0 <;> simp [h0]
    cases h1 : ok 1 <;> simp [h1]
    cases h2 : ok 2 <;> simp [h2]
    cases h3 : ok 3 <;> simp [h3]
    cases h4 : ok 4 <;> simp [h4]
    cases h5 : ok 5 <;> simp [h5]
    cases h6 : ok 6 <;> simp [h6]
    cases h7 : ok 7 <;> simp [h7]
    cases h8 : ok 8 <;> simp [h8]
    cases h9 : ok 9 <;> simp [h9]
    cases h10 : ok 10 <;> simp [h10]
    cases h11 : ok 11 <;> simp [h11]
    cases h12 : ok 12 <;> simp [h12]
    cases h13 : ok 13 <;> simp [h13]
    cases h15 : ok 15 <;> simp [h15]
    cases h16 : ok 16 <;> simp [h16]
    cases h17 : ok 17 <;> simp [h17]
    cases h18 : ok 18 <;> simp [h18]
    cases h19 : ok 19 <;> simp [h19]
    cases h20 : ok 20 <;> simp [h20]
    cases h21 : ok 21 <;> simp [h21]
  · simp only [attach, preInsertSteps, listenerSteps, runSteps]
    cases h0 : ok 0 <;> simp [h0]
    cases h1 : ok 1 <;> simp [h1]
    cases h2 : ok 2 <;> simp [h2]
    cases h3 : ok 3 <;> simp [h3]
    cases h4 : ok 4 <;> simp [h4]
    cases h5 : ok 5 <;> simp [h5]
    cases h6 : ok 6 <;> simp [h6]
    cases h7 : ok 7 <;> simp [h7]
    cases h8 : ok 8 <;> simp [h8]
    cases h9 : ok 9 <;> simp [h9]
    cases h10 : ok 10 <;> simp [h10]
    cases h11 : ok 11 <;> simp [h11]
    cases h12 : ok 12 <;> simp [h12]
    cases h13 : ok 13 <;> simp [h13]
    cases h14 : ok 14 <;> simp [h14]
    cases h15 : ok 15 <;> simp [h15]
    cases h16 : ok 16 <;> simp [h16]
    cases h17 : ok 17 <;> simp [h17]
    cases h18 : ok 18 <;> simp [h18]
    cases h19 : ok 19 <;> simp [h19]
    cases h20 : ok 20 <;> simp [h20]
    cases h21 : ok 21 <;> simp [h21]

/-- C7: `set_focus(true)` while the control already has focus performs no
platform focus call; while blurred it performs exactly one. `set_focus(false)`
performs a platform blur call exactly when the control has focus. This
holds whether the host accepts or rejects the platform call. -/
theorem c7_set_focus_idempotent :
    ∀ platform_ok : Bool,
      (set_focus true true platform_ok).focus_calls = 0 ∧
      (set_focus true true platform_ok).blur_calls = 0 ∧
      (set_focus true false platform_ok).focus_calls = 1 ∧
      (set_focus false true platform_ok).blur_calls = 1 ∧
      (set_focus false false platform_ok).blur_calls = 0 := by
  decide

/-- C8: `set_focus`, `focus` and `blur` return a plain trace — their type
has no error component, so a rejected platform call is never propagated —
and every rejection of an attempted platform call is consumed as exactly
one logged error. -/
theorem c8_focus_errors_swallowed :
    ∀ enable has_focus platform_ok : Bool,
      (set_focus enable has_focus platform_ok).logged_errors =
        (if platform_ok then 0 else
          (set_focus enable has_focus platform_ok).focus_calls +
            (set_focus enable has_focus platform_ok).blur_calls) ∧
      (focus has_focus platform_ok).logged_errors =
        (if platform_ok then 0 else (focus has_focus platform_ok).focus_calls) ∧
      (blur has_focus platform_ok).logged_errors =
        (if platform_ok then 0 else (blur has_focus platform_ok).blur_calls) := by
  decide

/-- The test `hasPrefixChars` decides the prefix relation on character lists. -/
theorem hasPrefixChars_iff (p : List Char) :
    ∀ l : List Char, hasPrefixChars p l = true ↔ p <+: l := by
  induction p with
  | nil => intro l; simp [hasPrefixChars, List.nil_prefix]
  | cons a ps ih =>
      intro l
      cases l with
      | nil => simp [hasPrefixChars, List.prefix_nil]
      | cons c cs =>
          simp [hasPrefixChars, List.cons_prefix_cons, ih cs, Bool.and_eq_true,
            beq_iff_eq]

/-- The test `containsChars` decides the contiguous-substring relation. -/
theorem containsChars_iff (pat : List Char) :
    ∀ l : List Char, containsChars pat l = true ↔ pat <:+: l := by
  intro l
  induction l with
  | nil => simp [containsChars, hasPrefixChars_iff, List.infix_nil, List.prefix_nil]
  | cons c cs ih =>
      simp [containsChars, Bool.or_eq_true, hasPrefixChars_iff, ih,
        List.infix_cons_iff]

/-- C9: the mobile-browser detection returns true for exactly those
identification strings that contain a mobile-device token ("iPhone",
"iPad" or "iPod") and the browser token "Safari"; a string with only one
kind of token is not a match, and a failed read of the identification
string (`none`) yields false rather than an error. -/
theorem c9_mobile_safari_characterization (ua : Option String) :
    is_mobile_safari ua = true ↔ mobile_safari_spec ua := by
  cases ua with
  | none => simp [is_mobile_safari, mobile_safari_spec]
  | some s =>
      simp [is_mobile_safari, mobile_safari_spec, containsStr, containsChars_iff,
        Bool.and_eq_true, Bool.or_eq_true, and_assoc, or_assoc]

end TextAgent
